import Mathlib

/-!
Verification development for the `svc-doc-generator` backend.

The definitions below are a shallow embedding of the Python sources:
Python dictionaries become association lists over a JSON value type,
Python strings become Lean `String` with character-list operations that
mirror the Python string methods, HTTP responses of the upstream GitHub
and OpenAI collaborators become explicit inductive inputs, and every
service/handler function becomes a total Lean function on those inputs.
-/

/-- Python `str.lower()` (ASCII behaviour, which is what the sources rely on). -/
def pyLower (s : String) : String := String.mk (s.data.map Char.toLower)

/-- Python `str.startswith(p)`. -/
def pyStartsWith (s p : String) : Bool := p.data.isPrefixOf s.data

/-- Python `str.strip()`: remove leading and trailing whitespace. -/
def pyStrip (s : String) : String :=
  String.mk (((s.data.dropWhile Char.isWhitespace).reverse.dropWhile Char.isWhitespace).reverse)

/-- JSON values, the payloads moved between the HTTP layer and the services. -/
inductive JVal where
  | str (s : String)
  | num (n : Int)
  | bool (b : Bool)
  | null
  | arr (elems : List JVal)
  | obj (fields : List (String × JVal))
deriving BEq

/-- A JSON object is an association list of fields. -/
abbrev JObj := List (String × JVal)

/-- Python `dict.get(k)`: `none` when the key is absent. -/
def jget (o : JObj) (k : String) : Option JVal :=
  (o.find? (fun p => p.1 == k)).map (·.2)

/-- Python `dict.get(k)` where the caller treats a missing key as `None`. -/
def jgetD (o : JObj) (k : String) : JVal :=
  (jget o k).getD .null

/-- Python `dict.get(k, d)` with an explicit default. -/
def jgetDef (o : JObj) (k : String) (d : JVal) : JVal :=
  (jget o k).getD d

/-- Lookup in a `str → int` dict with default, i.e. `m.get(code, default)`. -/
def dictGetD (m : List (String × Nat)) (code : String) (dflt : Nat) : Nat :=
  ((m.find? (fun p => p.1 == code)).map (·.2)).getD dflt

/-!
## GitHub proxy service — `app/services/github_service.py`

The outbound `requests.get` call is a collaborator; its possible outcomes
(an HTTP response with a status, the presence of the `X-RateLimit-Remaining`
header, and a parsed JSON body, or one of the `requests` exception classes)
are the explicit input of each embedded service function.
-/

/-- Outcome of the `requests.get` call made by `get_user_repositories`.
For a `200` response the code reads `items` (a list of repository objects)
and `total_count` out of the parsed JSON search result, so the body is
modelled by those two projections.  `reqExc` covers every other
`requests.exceptions.RequestException` (including the `HTTPError` produced
by `raise_for_status`), `otherExc` the final `except Exception` handler. -/
inductive ListingHttp where
  | resp (status : Nat) (hasRateLimitRemaining : Bool) (items : List JObj) (total_count : Nat)
  | timeout
  | connErr
  | reqExc (msg : String)
  | otherExc

/-- The sort-key mapping of `get_user_repositories` (`name`→`name`,
`updated_at`→`updated`, anything else passed through). -/
def github_sort_param (sort : String) : String :=
  if sort == "name" then "name"
  else if sort == "updated_at" then "updated"
  else sort

/-- The search query sent upstream: `"{search} user:{username}"` when a
search term is given, `"user:{username}"` otherwise. -/
def search_query_param (github_username : String) (search : Option String) : String :=
  match search with
  | some s => s ++ " user:" ++ github_username
  | none => "user:" ++ github_username

/-- The `owner` projection built inside the repository transformation:
`{login, id, avatar_url, html_url, type}` when `repo.get('owner')` is a
non-empty object (Python truthiness), `None` otherwise. -/
def transform_owner (repo : JObj) : JVal :=
  match jget repo "owner" with
  | some (.obj (f :: rest)) =>
      let o : JObj := f :: rest
      .obj [("login", jgetD o "login"), ("id", jgetD o "id"),
            ("avatar_url", jgetD o "avatar_url"), ("html_url", jgetD o "html_url"),
            ("type", jgetD o "type")]
  | _ => .null

/-- The per-repository projection of `get_user_repositories` (the
`transformed_repo` dict). -/
def transform_repo (repo : JObj) : JObj :=
  [("id", jgetD repo "id"), ("name", jgetD repo "name"),
   ("full_name", jgetD repo "full_name"), ("description", jgetD repo "description"),
   ("private", jgetD repo "private"), ("html_url", jgetD repo "html_url"),
   ("clone_url", jgetD repo "clone_url"), ("ssh_url", jgetD repo "ssh_url"),
   ("git_url", jgetD repo "git_url"), ("language", jgetD repo "language"),
   ("size", jgetD repo "size"), ("stargazers_count", jgetD repo "stargazers_count"),
   ("watchers_count", jgetD repo "watchers_count"), ("forks_count", jgetD repo "forks_count"),
   ("open_issues_count", jgetD repo "open_issues_count"),
   ("default_branch", jgetD repo "default_branch"),
   ("topics", jgetDef repo "topics" (.arr [])), ("visibility", jgetD repo "visibility"),
   ("archived", jgetD repo "archived"), ("disabled", jgetD repo "disabled"),
   ("fork", jgetD repo "fork"), ("created_at", jgetD repo "created_at"),
   ("updated_at", jgetD repo "updated_at"), ("pushed_at", jgetD repo "pushed_at"),
   ("score", jgetD repo "score"), ("owner", transform_owner repo)]

/-- Result dictionary of `get_user_repositories`.  `pyNone` is the implicit
`None` return taken when `raise_for_status` does not raise (a non-200
success/redirect status). -/
inductive RepoListResult where
  | okRepos (data : List JObj) (total_count returned_count total_pages : Nat)
      (has_next_page has_prev_page : Bool) (message : String)
  | err (message : String) (error_code : String)
  | pyNone

/-- Stand-in for `str(e)` of the `requests.exceptions.HTTPError` raised by
`response.raise_for_status()`; only the surrounding text matters to any
theorem below. -/
def httpErrorText (status : Nat) : String := toString status ++ " Error"

/-- `GitHubService.get_user_repositories`: classification of the upstream
response and, on `200`, the repository projection plus the pagination
metadata `total_pages = (total_count + per_page - 1) // per_page if
total_count > 0 else 1`, `has_next_page = page < total_pages`,
`has_prev_page = page > 1`.  `page`, `per_page` and `total_count` are the
non-negative integers the validated controller inputs and the upstream
counter supply. -/
def get_user_repositories (github_username : String) (search : Option String)
    (page per_page : Nat) (sort order : String) (outcome : ListingHttp) : RepoListResult :=
  match outcome with
  | .resp 200 _ items total_count =>
      let transformed := items.map transform_repo
      let total_pages := if total_count > 0 then (total_count + per_page - 1) / per_page else 1
      .okRepos transformed total_count transformed.length total_pages
        (decide (page < total_pages)) (decide (page > 1))
        ("Successfully fetched " ++ toString transformed.length ++ " repositories out of "
          ++ toString total_count ++ " total (page " ++ toString page ++ " of "
          ++ toString total_pages ++ ")")
  | .resp 422 _ _ _ =>
      .err ("Invalid search query for user \"" ++ github_username ++ "\"") "INVALID_SEARCH_QUERY"
  | .resp 403 true _ _ =>
      .err "GitHub API rate limit exceeded. Please try again later." "RATE_LIMIT_EXCEEDED"
  | .resp 403 false _ _ =>
      .err "Access forbidden. Authentication may be required." "ACCESS_FORBIDDEN"
  | .resp status _ _ _ =>
      if status ≥ 400 then
        .err ("Error fetching repositories: " ++ httpErrorText status) "REQUEST_ERROR"
      else .pyNone
  | .timeout => .err "Request timeout while fetching repositories from GitHub" "REQUEST_TIMEOUT"
  | .connErr => .err "Connection error while contacting GitHub API" "CONNECTION_ERROR"
  | .reqExc m => .err ("Error fetching repositories: " ++ m) "REQUEST_ERROR"
  | .otherExc => .err "An unexpected error occurred while fetching repositories" "UNEXPECTED_ERROR"

/-- Error code carried by a `RepoListResult` failure dict. -/
def RepoListResult.errorCode : RepoListResult → Option String
  | .err _ c => some c
  | _ => none

/-- Pagination triple `(total_pages, has_next_page, has_prev_page)` of a
success dict. -/
def RepoListResult.pagination : RepoListResult → Option (Nat × Bool × Bool)
  | .okRepos _ _ _ tp hn hp _ => some (tp, hn, hp)
  | _ => none

/-- Body of the `200` response of the contents endpoint: the GitHub
contents API returns a JSON array for a directory and a JSON object for a
single file — the `isinstance(contents_data, list)` test in the source. -/
inductive ContentsBody where
  | dir (items : List JObj)
  | file (f : JObj)

/-- Outcome of the `requests.get` call made by `get_repository_details`.
The whole body of that method is guarded by a single `except Exception`
handler, so every raised exception (timeout, connection error, the
`HTTPError` of `raise_for_status`, …) collapses into `exc`. -/
inductive ContentsHttp where
  | resp (status : Nat) (hasRateLimitRemaining : Bool) (body : ContentsBody)
  | exc (msg : String)

/-- The per-entry projection used for directory listings. -/
def transform_content_item (item : JObj) : JObj :=
  [("name", jgetD item "name"), ("path", jgetD item "path"),
   ("type", jgetD item "type"), ("size", jgetD item "size"),
   ("sha", jgetD item "sha"), ("url", jgetD item "url"),
   ("html_url", jgetD item "html_url"), ("git_url", jgetD item "git_url"),
   ("download_url", jgetD item "download_url"), ("_links", jgetD item "_links")]

/-- The single-file projection: the directory fields plus the base64
`content` and its `encoding`. -/
def transform_file_item (f : JObj) : JObj :=
  [("name", jgetD f "name"), ("path", jgetD f "path"),
   ("type", jgetD f "type"), ("size", jgetD f "size"),
   ("sha", jgetD f "sha"), ("url", jgetD f "url"),
   ("html_url", jgetD f "html_url"), ("git_url", jgetD f "git_url"),
   ("download_url", jgetD f "download_url"), ("content", jgetD f "content"),
   ("encoding", jgetD f "encoding"), ("_links", jgetD f "_links")]

/-- Result dictionary of `get_repository_details`. -/
inductive ContentsResult where
  | okDir (contents : List JObj) (path repository message : String)
  | okFile (file : JObj) (path repository message : String)
  | err (message : String) (error_code : String)
  | pyNone

/-- `GitHubService.get_repository_details`: note that, unlike the listing
call, the `403` branch returns `ACCESS_FORBIDDEN` without inspecting the
response headers. -/
def get_repository_details (owner repo_name path : String)
    (outcome : ContentsHttp) : ContentsResult :=
  match outcome with
  | .resp 200 _ (.dir items) =>
      .okDir (items.map transform_content_item) path (owner ++ "/" ++ repo_name)
        ("Successfully fetched directory contents for " ++ owner ++ "/" ++ repo_name ++ "/" ++ path)
  | .resp 200 _ (.file f) =>
      .okFile (transform_file_item f) path (owner ++ "/" ++ repo_name)
        ("Successfully fetched file contents for " ++ owner ++ "/" ++ repo_name ++ "/" ++ path)
  | .resp 404 _ _ =>
      .err ("Path \"" ++ path ++ "\" not found in repository \"" ++ owner ++ "/" ++ repo_name ++ "\"")
        "PATH_NOT_FOUND"
  | .resp 403 _ _ =>
      .err "Access forbidden. The repository may be private or you may not have permission."
        "ACCESS_FORBIDDEN"
  | .resp status _ _ =>
      if status ≥ 400 then
        .err ("Error fetching repository contents: " ++ httpErrorText status) "REQUEST_ERROR"
      else .pyNone
  | .exc m => .err ("Error fetching repository contents: " ++ m) "REQUEST_ERROR"

/-- Error code carried by a `ContentsResult` failure dict. -/
def ContentsResult.errorCode : ContentsResult → Option String
  | .err _ c => some c
  | _ => none

/-- C1 (counterexample): a `403` response to the repository-contents call
whose headers DO contain `X-RateLimit-Remaining` is still classified as
`ACCESS_FORBIDDEN` — the contents endpoint never inspects the header, so
the claimed `RATE_LIMIT_EXCEEDED` classification does not happen there. -/
theorem contents_403_with_header_not_rate_limited :
    (get_repository_details "octocat" "repo" "src"
        (.resp 403 true (.dir []))).errorCode = some "ACCESS_FORBIDDEN" ∧
    some "ACCESS_FORBIDDEN" ≠ some "RATE_LIMIT_EXCEEDED" := by
  constructor
  · rfl
  · decide

/-- C1 (amended): the repository-listing call disambiguates a `403` by the
presence of the rate-limit header (`RATE_LIMIT_EXCEEDED` with it,
`ACCESS_FORBIDDEN` without it), while the repository-contents call
classifies every `403` as `ACCESS_FORBIDDEN` regardless of the header. -/
theorem forbidden_classification_by_endpoint (u : String) (search : Option String)
    (page pp : Nat) (sort order : String) (items : List JObj) (tc : Nat)
    (hdr : Bool) (o r p : String) (body : ContentsBody) :
    (get_user_repositories u search page pp sort order
        (.resp 403 true items tc)).errorCode = some "RATE_LIMIT_EXCEEDED" ∧
    (get_user_repositories u search page pp sort order
        (.resp 403 false items tc)).errorCode = some "ACCESS_FORBIDDEN" ∧
    (get_repository_details o r p (.resp 403 hdr body)).errorCode = some "ACCESS_FORBIDDEN" := by
  refine ⟨rfl, rfl, ?_⟩
  cases body <;> rfl

/-- C2 (counterexample): on a `200` listing response with `total_count = 0`
(`page = 1`, `per_page = 30`) the service reports `total_pages = 1`,
whereas `ceil(total_count / per_page) = ceil(0 / 30) = 0`. -/
theorem pagination_zero_total_count :
    (get_user_repositories "octocat" none 1 30 "updated_at" "desc"
        (.resp 200 false [] 0)).pagination = some (1, false, false) ∧
    (0 : ℕ) ⌈/⌉ 30 = 0 ∧ (1 : ℕ) ≠ 0 := by
  refine ⟨rfl, by decide, by decide⟩

/-- C2 (amended): for every `200` listing response with `total_count > 0`,
`page ≥ 1` and `per_page ≥ 1`, the pagination fields satisfy
`total_pages = ceil(total_count / per_page)`,
`has_next_page = (page < total_pages)` and `has_prev_page = (page > 1)`;
when `total_count = 0` the service reports `total_pages = 1` instead of the
ceiling value `0` (the `if total_count > 0 else 1` branch). -/
theorem pagination_matches_ceiling (u : String) (search : Option String)
    (page pp tc : Nat) (sort order : String) (items : List JObj) (hdr : Bool)
    (hpage : 1 ≤ page) (hpp : 1 ≤ pp) :
    (0 < tc →
      (get_user_repositories u search page pp sort order
          (.resp 200 hdr items tc)).pagination =
        some (tc ⌈/⌉ pp, decide (page < tc ⌈/⌉ pp), decide (1 < page))) ∧
    (tc = 0 →
      (get_user_repositories u search page pp sort order
          (.resp 200 hdr items tc)).pagination =
        some (1, decide (page < 1), decide (1 < page))) := by
  constructor
  · intro htc
    simp only [get_user_repositories, RepoListResult.pagination,
      Nat.ceilDiv_eq_add_pred_div, htc, if_pos]
  · intro htc
    subst htc
    simp only [get_user_repositories, RepoListResult.pagination,
      Nat.lt_irrefl, if_false]

/-- Witness for `pagination_matches_ceiling` at `total_count = 61`,
`page = 2`, `per_page = 30`: `total_pages = ceil(61/30) = 3`, `has_next`
and `has_prev` both true. -/
theorem pagination_matches_ceiling_witness :
    1 ≤ 2 ∧ 1 ≤ 30 ∧ 0 < 61 ∧
    (get_user_repositories "octocat" none 2 30 "updated_at" "desc"
        (.resp 200 false [] 61)).pagination =
      some ((61 : ℕ) ⌈/⌉ 30, decide (2 < (61 : ℕ) ⌈/⌉ 30), decide (1 < 2)) :=
  ⟨by decide, by decide, by decide,
    (pagination_matches_ceiling "octocat" none 2 30 61 "updated_at" "desc" [] false
      (by decide) (by decide)).1 (by decide)⟩

/-!
## Response envelope — `app/controllers/base_controller.py`
-/

/-- The `(jsonify(...), status)` pair produced by `success_response` /
`error_response`: the boolean `success` flag, the `message` string and the
HTTP status code. -/
structure Env where
  success : Bool
  message : String
  status : Nat
deriving DecidableEq

/-!
## Request validation — `UserSchema` of `app/services/user_service.py`

The schemas are marshmallow 3 schemas: the controllers call `schema.load`
expecting the validated dict back and catching `ValidationError`, which is
the marshmallow 3 interface (in marshmallow 2 `load` returned a
`(data, errors)` pair and did not raise), and the `@post_load` hook takes
`**kwargs`.  Under marshmallow 3 the default `unknown` policy is `RAISE`:
every input key that is not a loadable declared field — including the
`dump_only` fields — produces an `{"<key>": ["Unknown field."]}` entry,
and the validator collects all field errors before raising.
-/

/-- One entry of the marshmallow error mapping: field name and message. -/
structure FieldErr where
  field : String
  msg : String
deriving DecidableEq

/-- Model of the marshmallow `fields.Email` format validator: one `@` with
a non-empty local part and a domain that contains a dot.  (Only its
verdicts on the concrete addresses appearing below matter; the real
validator agrees on all of them.) -/
def emailValid (s : String) : Bool :=
  let cs := s.data
  let loc := cs.takeWhile (· ≠ '@')
  match cs.dropWhile (· ≠ '@') with
  | '@' :: dom => decide (loc ≠ []) && decide (dom ≠ []) && dom.contains '.' && !dom.contains '@'
  | _ => false

/-- `email = fields.Email(required=True, validate=validate.Length(max=120))`. -/
def checkEmailField (o : JObj) : List FieldErr :=
  match jget o "email" with
  | none => [⟨"email", "Missing data for required field."⟩]
  | some (.str s) =>
      (if emailValid s then [] else [⟨"email", "Not a valid email address."⟩]) ++
      (if s.length > 120 then [⟨"email", "Longer than maximum length 120."⟩] else [])
  | some _ => [⟨"email", "Not a valid email address."⟩]

/-- A required/optional `fields.Str` with optional `validate.Length` bounds. -/
def checkStrField (o : JObj) (k : String) (req : Bool) (minLen maxLen : Option Nat) : List FieldErr :=
  match jget o k with
  | none => if req then [⟨k, "Missing data for required field."⟩] else []
  | some (.str s) =>
      (match minLen with
       | some m => if s.length < m then [⟨k, "Shorter than minimum length " ++ toString m ++ "."⟩] else []
       | none => []) ++
      (match maxLen with
       | some m => if s.length > m then [⟨k, "Longer than maximum length " ++ toString m ++ "."⟩] else []
       | none => [])
  | some _ => [⟨k, "Not a valid string."⟩]

/-- `role = fields.Str(validate=validate.OneOf([...]), missing='user')`. -/
def checkRoleField (o : JObj) : List FieldErr :=
  match jget o "role" with
  | none => []
  | some (.str s) =>
      if s = "user" ∨ s = "admin" ∨ s = "moderator" then []
      else [⟨"role", "Must be one of: user, admin, moderator."⟩]
  | some _ => [⟨"role", "Not a valid string."⟩]

/-- `is_active = fields.Bool(missing=True)`. -/
def checkIsActiveField (o : JObj) : List FieldErr :=
  match jget o "is_active" with
  | none => []
  | some (.bool _) => []
  | some _ => [⟨"is_active", "Not a valid boolean."⟩]

/-- The loadable declared fields of `UserSchema` (its `dump_only` fields —
`id`, `full_name`, `is_admin`, `created_at`, `updated_at`, `last_login` —
are not loadable, so on `load` they count as unknown like any other
undeclared key). -/
def userSchemaDeclaredLoadFields : List String :=
  ["email", "password", "first_name", "last_name", "role", "is_active"]

/-- The `Unknown field.` errors marshmallow 3 raises (default
`unknown = RAISE`) for every input key outside the loadable fields. -/
def unknownFieldErrs (o : JObj) : List FieldErr :=
  o.filterMap (fun p =>
    if p.1 ∈ userSchemaDeclaredLoadFields then none else some ⟨p.1, "Unknown field."⟩)

/-- All field errors `UserSchema().load` collects for an input mapping. -/
def userSchemaErrors (o : JObj) : List FieldErr :=
  checkEmailField o ++ checkStrField o "password" true (some 6) none ++
  checkStrField o "first_name" true none (some 50) ++
  checkStrField o "last_name" true none (some 50) ++
  checkRoleField o ++ checkIsActiveField o ++ unknownFieldErrs o

/-- The validated dict `UserSchema().load` returns on success: exactly the
declared loadable fields, with the `missing=` defaults filled in. -/
def userSchemaOutput (o : JObj) : JObj :=
  [("email", jgetD o "email"), ("password", jgetD o "password"),
   ("first_name", jgetD o "first_name"), ("last_name", jgetD o "last_name"),
   ("role", jgetDef o "role" (.str "user")), ("is_active", jgetDef o "is_active" (.bool true))]

/-- `UserSchema().load(o)`: the validated dict, or `ValidationError` with
the collected per-field messages. -/
def userSchemaLoad (o : JObj) : Except (List FieldErr) JObj :=
  if userSchemaErrors o = [] then .ok (userSchemaOutput o) else .error (userSchemaErrors o)

/-!
## User model and user service — `app/models/user.py`,
`app/services/user_service.py`, `app/controllers/auth_controller.py`,
`app/controllers/registration_controller.py`

`User` carries `email`, `password_hash`, `first_name`, `last_name`,
`role` and `is_active` (there is no `github_username` column and no
`find_by_github_username` classmethod on this revision of the model).
The werkzeug hash pair is a collaborator: a stored hash verifies exactly
the password it was generated from, so the record keeps that password. -/
structure UserRec where
  email : String
  password : String
  first_name : String
  last_name : String
  role : String
  is_active : Bool
deriving DecidableEq

/-- `User.find_by_email`: `filter_by(email=email.lower()).first()`;
stored emails are already lower-cased by the model's email validator. -/
def find_by_email (store : List UserRec) (email : String) : Option UserRec :=
  store.find? (fun u => u.email == pyLower email)

/-- `UserService.authenticate_user`: unknown email raises
`ValueError('User not found')` (from `get_user_by_email`), an inactive
account raises `ValueError('User account is inactive')`, a wrong password
raises `ValueError('Invalid credentials')`. -/
def authenticate_user (store : List UserRec) (email password : String) : Except String UserRec :=
  match find_by_email store email with
  | none => .error "User not found"
  | some u =>
      if !u.is_active then .error "User account is inactive"
      else if u.password != password then .error "Invalid credentials"
      else .ok u

/-- `AuthController.login` after successful validation: the `ValueError`
message raised by `authenticate_user` is surfaced verbatim with HTTP 401. -/
def login_response (store : List UserRec) (email password : String) : Env :=
  match authenticate_user store email password with
  | .ok _ => ⟨true, "Login successful", 200⟩
  | .error m => ⟨false, m, 401⟩

/-- Character class `[a-zA-Z0-9._%+-]` of the model's email regex. -/
def isLocalChar (c : Char) : Bool :=
  c.isAlphanum || c = '.' || c = '_' || c = '%' || c = '+' || c = '-'

/-- Character class `[a-zA-Z0-9.-]` of the model's email regex. -/
def isDomainChar (c : Char) : Bool := c.isAlphanum || c = '.' || c = '-'

/-- `User.validate_email`'s regex
`^[a-zA-Z0-9._%+-]+@[a-zA-Z0-9.-]+\.[a-zA-Z]{2,}$`: local part, `@`, a
domain, a dot, and a trailing alphabetic label of length ≥ 2. -/
def validate_email_pattern (s : String) : Bool :=
  let cs := s.data
  let loc := cs.takeWhile (· ≠ '@')
  match cs.dropWhile (· ≠ '@') with
  | '@' :: dom =>
      decide (loc ≠ []) && loc.all isLocalChar &&
      (let rd := dom.reverse
       let tld := rd.takeWhile (· ≠ '.')
       match rd.dropWhile (· ≠ '.') with
       | '.' :: preRest =>
           decide (tld.length ≥ 2) && tld.all (·.isAlpha) &&
           decide (preRest ≠ []) && preRest.all isDomainChar
       | _ => false)
  | _ => false

/-- The string held by a schema-validated string field. -/
def asStr : JVal → String
  | .str s => s
  | _ => ""

/-- The boolean held by a schema-validated bool field. -/
def asBool : JVal → Bool
  | .bool b => b
  | _ => true

/-- `UserService.create_user` on a validated dict: the duplicate-email
existence check runs first, before any object construction or write; only
then is `User(**data)` built (its `email`/`role` validators can still
raise) and `save`d.  Returns the created row and the updated table. -/
def create_user (db : List UserRec) (data : JObj) : Except String (UserRec × List UserRec) :=
  let email := asStr (jgetD data "email")
  if (find_by_email db email).isSome then .error "User with this email already exists"
  else if !validate_email_pattern email then .error "Invalid email format"
  else
    let role := asStr (jgetDef data "role" (.str "user"))
    if !(role == "user" || role == "admin" || role == "moderator") then
      .error "Role must be one of: user, admin, moderator"
    else
      let u : UserRec :=
        { email := pyLower email, password := asStr (jgetD data "password"),
          first_name := asStr (jgetD data "first_name"),
          last_name := asStr (jgetD data "last_name"),
          role := role, is_active := asBool (jgetDef data "is_active" (.bool true)) }
      .ok (u, db ++ [u])

/-- Rendering of the marshmallow messages mapping inside the controller's
`f"Validation error: {e.messages}"`; the exact dict punctuation is
abstracted, only the `Validation error: ` prefix is relied upon below. -/
def showFieldErrs (errs : List FieldErr) : String :=
  String.intercalate "; " (errs.map (fun e => e.field ++ ": " ++ e.msg))

/-- `RegistrationController.register`.  In order: the missing/empty-body
check, the `confirmPassword` comparison and pop, `UserSchema.load`, the
`github_username` block (dead on this model revision: the schema declares
no `github_username` field, so the validated dict never contains one; were
the block ever entered, `User.find_by_github_username` does not exist and
the resulting `AttributeError` would hit the generic 500 handler), then
`create_user`.  Returns the envelope and the resulting user table. -/
def register (db : List UserRec) (json_data : Option JObj) : Env × List UserRec :=
  match json_data with
  | none => (⟨false, "No JSON data provided", 400⟩, db)
  | some o =>
    if o.isEmpty then (⟨false, "No JSON data provided", 400⟩, db)
    else if (jget o "confirmPassword").isSome && !(jget o "password" == jget o "confirmPassword") then
      (⟨false, "Passwords do not match", 400⟩, db)
    else
      let o' := if (jget o "confirmPassword").isSome
                then o.filter (fun p => !(p.1 == "confirmPassword")) else o
      match userSchemaLoad o' with
      | .error errs => (⟨false, "Validation error: " ++ showFieldErrs errs, 400⟩, db)
      | .ok data =>
          let gu := match jget data "github_username" with
                    | some (.str s) => pyStrip s
                    | _ => ""
          if gu ≠ "" then (⟨false, "Registration failed", 500⟩, db)
          else
            match create_user db data with
            | .error m => (⟨false, m, 400⟩, db)
            | .ok (_, db') => (⟨true, "Registration successful", 201⟩, db')

/-- C3 (counterexample): with one active stored user, a wrong password
yields `Invalid credentials` while an unknown email yields
`User not found` — the two failure causes are distinguishable from the
returned message (both surfaced verbatim by the login handler). -/
theorem auth_wrong_password_vs_unknown_email_distinguishable :
    authenticate_user [⟨"x@example.com", "correct-horse", "Ada", "Lovelace", "user", true⟩]
        "x@example.com" "wrong" = .error "Invalid credentials" ∧
    authenticate_user [⟨"x@example.com", "correct-horse", "Ada", "Lovelace", "user", true⟩]
        "nouser@example.com" "anything" = .error "User not found" ∧
    "Invalid credentials" ≠ "User not found" :=
  ⟨rfl, rfl, by decide⟩

/-- C3 (amended): the failure message reveals the cause: a wrong password
on an existing active account always produces `Invalid credentials`, an
email with no stored user always produces `User not found`, and the two
messages differ. -/
theorem auth_failure_message_reveals_cause (store : List UserRec)
    (email pw e2 p2 : String) (u : UserRec)
    (hfind : find_by_email store email = some u) (hact : u.is_active = true)
    (hpw : u.password ≠ pw) (hnone : find_by_email store e2 = none) :
    authenticate_user store email pw = .error "Invalid credentials" ∧
    authenticate_user store e2 p2 = .error "User not found" ∧
    "Invalid credentials" ≠ "User not found" := by
  refine ⟨?_, ?_, by decide⟩
  · simp [authenticate_user, hfind, hact, bne_iff_ne, hpw]
  · simp [authenticate_user, hnone]

/-- Witness for `auth_failure_message_reveals_cause` on a concrete store. -/
theorem auth_failure_message_reveals_cause_witness :
    authenticate_user [⟨"amy@mail.org", "p4ssword", "Amy", "Noether", "admin", true⟩]
        "amy@mail.org" "guess" = .error "Invalid credentials" ∧
    authenticate_user [⟨"amy@mail.org", "p4ssword", "Amy", "Noether", "admin", true⟩]
        "ghost@mail.org" "guess" = .error "User not found" :=
  ⟨(auth_failure_message_reveals_cause
      [⟨"amy@mail.org", "p4ssword", "Amy", "Noether", "admin", true⟩]
      "amy@mail.org" "guess" "ghost@mail.org" "guess"
      ⟨"amy@mail.org", "p4ssword", "Amy", "Noether", "admin", true⟩
      rfl rfl (by decide) rfl).1,
   (auth_failure_message_reveals_cause
      [⟨"amy@mail.org", "p4ssword", "Amy", "Noether", "admin", true⟩]
      "amy@mail.org" "guess" "ghost@mail.org" "guess"
      ⟨"amy@mail.org", "p4ssword", "Amy", "Noether", "admin", true⟩
      rfl rfl (by decide) rfl).2.1⟩

/-- C5 (counterexample): a payload with valid declared fields plus one
undeclared field does not validate: `UserSchema().load` fails with an
`Unknown field.` error for the undeclared key. -/
theorem unknown_field_is_error_counterexample :
    userSchemaLoad [("email", .str "a@b.com"), ("password", .str "secret1"),
      ("first_name", .str "Ada"), ("last_name", .str "Lovelace"),
      ("extra_field", .str "x")] = .error [⟨"extra_field", "Unknown field."⟩] := rfl

/-- C5 (amended): undeclared input fields are rejected, not ignored: any
payload containing a key outside the declared loadable fields fails with
an `Unknown field.` entry for that key, and a successful load yields
exactly the declared fields. -/
theorem unknown_fields_rejected_declared_fields_kept (o : JObj) :
    (∀ k v, (k, v) ∈ o → k ∉ userSchemaDeclaredLoadFields →
       ∃ errs, userSchemaLoad o = .error errs ∧ FieldErr.mk k "Unknown field." ∈ errs) ∧
    (∀ out, userSchemaLoad o = .ok out → out.map Prod.fst = userSchemaDeclaredLoadFields) := by
  constructor
  · intro k v hkv hk
    have hmem : FieldErr.mk k "Unknown field." ∈ unknownFieldErrs o :=
      List.mem_filterMap.mpr ⟨(k, v), hkv, by simp [hk]⟩
    have hmem2 : FieldErr.mk k "Unknown field." ∈ userSchemaErrors o := by
      unfold userSchemaErrors
      simp [hmem]
    have hne : userSchemaErrors o ≠ [] := by
      intro h
      rw [h] at hmem2
      exact List.not_mem_nil _ hmem2
    refine ⟨userSchemaErrors o, ?_, hmem2⟩
    unfold userSchemaLoad
    rw [if_neg hne]
  · intro out h
    unfold userSchemaLoad at h
    by_cases he : userSchemaErrors o = []
    · rw [if_pos he] at h
      cases h
      rfl
    · rw [if_neg he] at h
      exact Except.noConfusion h

/-- Witness for `unknown_fields_rejected_declared_fields_kept`:
a `github_username` key (present in the spec's registration payload but
undeclared in `UserSchema`) is rejected as an unknown field. -/
theorem unknown_fields_rejected_witness :
    ∃ errs, userSchemaLoad [("email", .str "b@c.org"), ("password", .str "hunter22"),
        ("first_name", .str "Grace"), ("last_name", .str "Hopper"),
        ("github_username", .str "ghopper")] = .error errs ∧
      FieldErr.mk "github_username" "Unknown field." ∈ errs :=
  (unknown_fields_rejected_declared_fields_kept _).1 "github_username" (.str "ghopper")
    (by simp) (by decide)

/-- C6 (counterexample): registering a payload that carries the spec's
`github_username` field with an email that already exists fails with the
schema's `Unknown field.` validation error, not with the duplicate-email
error — and the duplicate-email check in `create_user` is therefore never
even reached for such payloads. -/
theorem register_github_username_payload_counterexample :
    register [⟨"a@b.com", "oldhash", "Ada", "Lovelace", "user", true⟩]
      (some [("email", .str "a@b.com"), ("password", .str "secret1"),
             ("first_name", .str "Ada"), ("last_name", .str "Lovelace"),
             ("github_username", .str "different-handle")]) =
      (⟨false, "Validation error: github_username: Unknown field.", 400⟩,
       [⟨"a@b.com", "oldhash", "Ada", "Lovelace", "user", true⟩]) ∧
    "Validation error: github_username: Unknown field." ≠ "User with this email already exists" :=
  ⟨rfl, by decide⟩

/-- C6 (amended): for every payload that validates against the code's
`UserSchema` (and has no `confirmPassword` key), registering with an email
belonging to an existing user fails with `User with this email already
exists` and leaves the user table unchanged (no persistence write); and no
schema-valid payload can contain a `github_username` field at all, so the
handler's duplicate-github-username check — which is written before, not
after, the duplicate-email check — never executes. -/
theorem duplicate_email_fails_before_write (db : List UserRec) (o : JObj) (data : JObj)
    (e : String) (u : UserRec)
    (hconf : jget o "confirmPassword" = none)
    (hload : userSchemaLoad o = .ok data)
    (hemail : jget o "email" = some (.str e))
    (hdup : find_by_email db e = some u) :
    register db (some o) = (⟨false, "User with this email already exists", 400⟩, db) ∧
    (∀ v, ("github_username", v) ∈ o → False) := by
  constructor
  · have hne : o ≠ [] := by
      intro h
      subst h
      simp [jget] at hemail
    have hempty : o.isEmpty = false := by
      cases o with
      | nil => exact absurd rfl hne
      | cons a t => rfl
    have hcs : (jget o "confirmPassword").isSome = false := by rw [hconf]; rfl
    have hdata : data = userSchemaOutput o := by
      unfold userSchemaLoad at hload
      by_cases he : userSchemaErrors o = []
      · rw [if_pos he] at hload
        exact (Except.ok.inj hload).symm
      · rw [if_neg he] at hload
        exact Except.noConfusion hload
    have hget_gu : jget data "github_username" = none := by rw [hdata]; rfl
    have hget_email : jgetD data "email" = .str e := by
      rw [hdata]
      show jgetD o "email" = .str e
      unfold jgetD
      rw [hemail]
      rfl
    have hcu : create_user db data = .error "User with this email already exists" := by
      simp only [create_user, hget_email, asStr, hdup, Option.isSome_some, if_true]
    simp [register, hempty, hcs, hload, hget_gu, hcu]
  · intro v hv
    have hk : "github_username" ∉ userSchemaDeclaredLoadFields := by decide
    have hmem : FieldErr.mk "github_username" "Unknown field." ∈ unknownFieldErrs o :=
      List.mem_filterMap.mpr ⟨("github_username", v), hv, by simp [hk]⟩
    have hmem2 : FieldErr.mk "github_username" "Unknown field." ∈ userSchemaErrors o := by
      unfold userSchemaErrors
      simp [hmem]
    have hne2 : userSchemaErrors o ≠ [] := by
      intro h
      rw [h] at hmem2
      exact List.not_mem_nil _ hmem2
    unfold userSchemaLoad at hload
    rw [if_neg hne2] at hload
    exact Except.noConfusion hload

/-- Witness for `duplicate_email_fails_before_write` on a concrete table
and schema-valid payload. -/
theorem duplicate_email_fails_before_write_witness :
    register [⟨"dup@mail.org", "h0", "Alan", "Turing", "user", true⟩]
      (some [("email", .str "dup@mail.org"), ("password", .str "sevenchars"),
             ("first_name", .str "Alan"), ("last_name", .str "Turing")]) =
      (⟨false, "User with this email already exists", 400⟩,
       [⟨"dup@mail.org", "h0", "Alan", "Turing", "user", true⟩]) :=
  (duplicate_email_fails_before_write
    [⟨"dup@mail.org", "h0", "Alan", "Turing", "user", true⟩]
    [("email", .str "dup@mail.org"), ("password", .str "sevenchars"),
     ("first_name", .str "Alan"), ("last_name", .str "Turing")]
    (userSchemaOutput [("email", .str "dup@mail.org"), ("password", .str "sevenchars"),
     ("first_name", .str "Alan"), ("last_name", .str "Turing")])
    "dup@mail.org"
    ⟨"dup@mail.org", "h0", "Alan", "Turing", "user", true⟩
    rfl rfl rfl rfl).1

/-!
## Error/status mapping — `app/controllers/github_controller.py`

Each handler builds its own inline `status_code_map` dict and looks the
service's `error_code` up with default `500`; the three dicts are
reproduced verbatim below.
-/

/-- The inline map of `GitHubController.get_user_repositories`. -/
def repositories_status_code_map : List (String × Nat) :=
  [("USER_NOT_FOUND", 404), ("RATE_LIMIT_EXCEEDED", 429), ("ACCESS_FORBIDDEN", 403),
   ("REQUEST_TIMEOUT", 408), ("CONNECTION_ERROR", 503), ("REQUEST_ERROR", 502),
   ("UNEXPECTED_ERROR", 500)]

/-- The inline map of `GitHubController.get_repository_details`. -/
def contents_status_code_map : List (String × Nat) :=
  [("PATH_NOT_FOUND", 404), ("REPOSITORY_NOT_FOUND", 404), ("ACCESS_FORBIDDEN", 403),
   ("REQUEST_ERROR", 500)]

/-- The inline map of `GitHubController.get_repository_branches`. -/
def branches_status_code_map : List (String × Nat) :=
  [("REPOSITORY_NOT_FOUND", 404), ("ACCESS_FORBIDDEN", 403), ("REQUEST_TIMEOUT", 408),
   ("CONNECTION_ERROR", 503), ("REQUEST_ERROR", 502), ("UNEXPECTED_ERROR", 500)]

/-- `dict.get(code, default)` returns the default when the code is not a
key of the mapping. -/
theorem dictGetD_not_mem (m : List (String × Nat)) (c : String) (d : Nat)
    (h : c ∉ m.map Prod.fst) : dictGetD m c d = d := by
  have hf : m.find? (fun p => p.1 == c) = none := by
    apply List.find?_eq_none.mpr
    intro x hx hpx
    exact h (List.mem_map.mpr ⟨x, hx, by simpa using (eq_of_beq hpx)⟩)
  simp [dictGetD, hf]

/-- C7 (counterexample): the status mapping is not one centralized table:
the handlers disagree on `REQUEST_ERROR` (502 in the listing handler, 500
in the contents handler), and no handler maps `INVALID_QUERY` to 400 (the
listing handler leaves it — and the code the service actually emits,
`INVALID_SEARCH_QUERY` — to the 500 default). -/
theorem status_mapping_differs_across_handlers :
    dictGetD repositories_status_code_map "REQUEST_ERROR" 500 = 502 ∧
    dictGetD contents_status_code_map "REQUEST_ERROR" 500 = 500 ∧
    (502 : Nat) ≠ 500 ∧
    dictGetD repositories_status_code_map "INVALID_QUERY" 500 = 500 ∧
    dictGetD repositories_status_code_map "INVALID_SEARCH_QUERY" 500 = 500 := by
  refine ⟨rfl, rfl, by decide, rfl, rfl⟩

/-- C7 (amended): each of the three GitHub handlers carries its own inline
error-code → HTTP-status dict, looked up with default `500` for
unrecognized codes; the tables agree where their keys overlap except for
`REQUEST_ERROR`, which maps to 502 in the listing and branches handlers
but to 500 in the contents handler, and none of them contains an
`INVALID_QUERY` entry. -/
theorem per_handler_status_tables (c : String)
    (h1 : c ∉ repositories_status_code_map.map Prod.fst)
    (h2 : c ∉ contents_status_code_map.map Prod.fst)
    (h3 : c ∉ branches_status_code_map.map Prod.fst) :
    dictGetD repositories_status_code_map c 500 = 500 ∧
    dictGetD contents_status_code_map c 500 = 500 ∧
    dictGetD branches_status_code_map c 500 = 500 ∧
    dictGetD repositories_status_code_map "USER_NOT_FOUND" 500 = 404 ∧
    dictGetD repositories_status_code_map "RATE_LIMIT_EXCEEDED" 500 = 429 ∧
    dictGetD repositories_status_code_map "ACCESS_FORBIDDEN" 500 = 403 ∧
    dictGetD repositories_status_code_map "REQUEST_TIMEOUT" 500 = 408 ∧
    dictGetD repositories_status_code_map "CONNECTION_ERROR" 500 = 503 ∧
    dictGetD repositories_status_code_map "REQUEST_ERROR" 500 = 502 ∧
    dictGetD repositories_status_code_map "UNEXPECTED_ERROR" 500 = 500 ∧
    dictGetD contents_status_code_map "PATH_NOT_FOUND" 500 = 404 ∧
    dictGetD contents_status_code_map "REPOSITORY_NOT_FOUND" 500 = 404 ∧
    dictGetD contents_status_code_map "ACCESS_FORBIDDEN" 500 = 403 ∧
    dictGetD contents_status_code_map "REQUEST_ERROR" 500 = 500 ∧
    dictGetD branches_status_code_map "REPOSITORY_NOT_FOUND" 500 = 404 ∧
    dictGetD branches_status_code_map "ACCESS_FORBIDDEN" 500 = 403 ∧
    dictGetD branches_status_code_map "REQUEST_TIMEOUT" 500 = 408 ∧
    dictGetD branches_status_code_map "CONNECTION_ERROR" 500 = 503 ∧
    dictGetD branches_status_code_map "REQUEST_ERROR" 500 = 502 ∧
    dictGetD branches_status_code_map "UNEXPECTED_ERROR" 500 = 500 := by
  refine ⟨dictGetD_not_mem _ _ _ h1, dictGetD_not_mem _ _ _ h2, dictGetD_not_mem _ _ _ h3,
    rfl, rfl, rfl, rfl, rfl, rfl, rfl, rfl, rfl, rfl, rfl, rfl, rfl, rfl, rfl, rfl, rfl⟩

/-- Witness for `per_handler_status_tables` at the code `INVALID_QUERY`
(the code the spec's table claims maps to 400): all three handlers fall
back to 500. -/
theorem per_handler_status_tables_witness :
    dictGetD repositories_status_code_map "INVALID_QUERY" 500 = 500 ∧
    dictGetD contents_status_code_map "INVALID_QUERY" 500 = 500 ∧
    dictGetD branches_status_code_map "INVALID_QUERY" 500 = 500 :=
  ⟨(per_handler_status_tables "INVALID_QUERY" (by decide) (by decide) (by decide)).1,
   (per_handler_status_tables "INVALID_QUERY" (by decide) (by decide) (by decide)).2.1,
   (per_handler_status_tables "INVALID_QUERY" (by decide) (by decide) (by decide)).2.2.1⟩

/-!
## Contents endpoint handler — `GitHubController.get_repository_details`

The handler invokes
`self.github_service.get_repository_details(owner=..., repo_name=...,
path=..., branch=branch, access_token=...)`, but the service method's
signature is `get_repository_details(self, owner, repo_name, path="",
access_token=None)`: there is no `branch` parameter.  Python raises
`TypeError` for the unexpected keyword before any upstream request is
made; the handler's `except Exception` turns that into the generic 500
envelope.  The keyword/parameter name lists and the membership check below
embed exactly that call semantics.
-/

/-- Parameter names of `GitHubService.get_repository_details`. -/
def contents_service_param_names : List String :=
  ["self", "owner", "repo_name", "path", "access_token"]

/-- Keyword arguments the controller passes to the service. -/
def controller_contents_call_keywords : List String :=
  ["owner", "repo_name", "path", "branch", "access_token"]

/-- The contents route handler: the user lookup, the
`GitHubRepositoryDetailQuerySchema` check (`repo_name` non-blank), the
service call guarded by Python keyword-argument semantics, and the
per-handler status mapping of the service's error codes. -/
def github_contents_handler (userFound : Bool)
    (github_username repo_name path branch : String) (outcome : ContentsHttp) : Env :=
  if !userFound then ⟨false, "User not found", 404⟩
  else if pyStrip repo_name == "" then ⟨false, "Invalid parameters", 400⟩
  else if controller_contents_call_keywords.all
      (fun k => contents_service_param_names.contains k) then
    match get_repository_details github_username repo_name path outcome with
    | .okDir _ _ _ m => ⟨true, m, 200⟩
    | .okFile _ _ _ m => ⟨true, m, 200⟩
    | .err m c => ⟨false, m, dictGetD contents_status_code_map c 500⟩
    | .pyNone => ⟨false, "An unexpected error occurred while fetching repository contents", 500⟩
  else ⟨false, "An unexpected error occurred while fetching repository contents", 500⟩

/-- C4: every request to the contents endpoint — including one whose
upstream call would return `200` — yields the generic 500 envelope,
because the controller passes the keyword argument `branch`, which the
service signature does not accept; had the call been legal, a `200`
directory response would have produced the success projection shown in the
last conjunct. -/
theorem contents_endpoint_branch_keyword_rejected
    (github_username repo_name path branch : String) (outcome : ContentsHttp)
    (hvalid : pyStrip repo_name ≠ "") :
    github_contents_handler true github_username repo_name path branch outcome =
      ⟨false, "An unexpected error occurred while fetching repository contents", 500⟩ ∧
    ("branch" ∈ controller_contents_call_keywords ∧
     "branch" ∉ contents_service_param_names) ∧
    (∀ hdr items, get_repository_details github_username repo_name path
        (.resp 200 hdr (.dir items)) =
      .okDir (items.map transform_content_item) path
        (github_username ++ "/" ++ repo_name)
        ("Successfully fetched directory contents for " ++ github_username ++ "/"
          ++ repo_name ++ "/" ++ path)) := by
  refine ⟨?_, ⟨by decide, by decide⟩, fun hdr items => rfl⟩
  have hb : (pyStrip repo_name == "") = false := by
    rw [beq_eq_false_iff_ne]
    exact hvalid
  have hkw : controller_contents_call_keywords.all
      (fun k => contents_service_param_names.contains k) = false := by decide
  simp only [github_contents_handler, Bool.not_true, hb, hkw, Bool.false_eq_true, if_false]

/-- Witness for `contents_endpoint_branch_keyword_rejected`: an
authenticated request for `myrepo` at the repository root whose upstream
call would answer `200` with an (empty) directory listing still gets the
generic 500 envelope. -/
theorem contents_endpoint_branch_keyword_rejected_witness :
    github_contents_handler true "octocat" "myrepo" "" "main"
        (.resp 200 false (.dir [])) =
      ⟨false, "An unexpected error occurred while fetching repository contents", 500⟩ :=
  (contents_endpoint_branch_keyword_rejected "octocat" "myrepo" "" "main"
    (.resp 200 false (.dir [])) (by decide)).1

/-!
## Documentation format validation —
`OpenAIService._validate_documentation_format`

The Python function immediately does `content.split('\n')` and returns
`'\n'.join(...)`, so the content is represented here by its list of lines
(Python's split never produces an empty list; the empty string splits to
`[""]`).  The `content.startswith(title)` test is equivalent to testing
the first line, because the title contains no newline.  The
missing-section scan (`section not in content`) only feeds a log warning
and never changes the returned text, so it does not appear in the result.
-/

/-- The seven required section headings, in order. -/
def requiredSections : List String :=
  ["## 1. Overview", "## 2. Key Components", "## 3. Parameters/Arguments",
   "## 4. Return Values", "## 5. Dependencies", "## 6. Usage Examples",
   "## 7. Best Practices"]

/-- The `for`/`break` loop that replaces the first line starting with
`'# '` by the expected title. -/
def replaceFirstHeading (title : String) : List String → List String
  | [] => []
  | l :: rest =>
      if pyStartsWith l "# " then title :: rest
      else l :: replaceFirstHeading title rest

/-- The title-fixing step: rewrite the first `'# '` line in place, or — the
loop's `else` clause — insert the title and a blank line at the front when
no line starts with `'# '`. -/
def fixTitleLines (title : String) (ls : List String) : List String :=
  if ls.any (fun l => pyStartsWith l "# ") then replaceFirstHeading title ls
  else title :: "" :: ls

/-- The look-ahead for `next_non_empty`: the first of the given indices
whose line has non-blank content, stripped. -/
def firstNonEmptyAt (ls : List String) : List Nat → Option String
  | [] => none
  | j :: rest =>
      match ls.get? j with
      | some s => if pyStrip s ≠ "" then some (pyStrip s) else firstNonEmptyAt ls rest
      | none => firstNonEmptyAt ls rest

/-- `next_non_empty` scanned over `range(i+1, min(i+5, len(lines)))`. -/
def nextNonEmptyAfter (ls : List String) (i : Nat) : Option String :=
  firstNonEmptyAt ls [i + 1, i + 2, i + 3, i + 4]

/-- A line that triggers the separator insertion: it starts with one of
`required_sections[:-1]` (the first six headings). -/
def isSeparatorTrigger (line : String) : Bool :=
  (requiredSections.take 6).any (fun s => pyStartsWith line s)

/-- The `section_end < len(lines)` test: some later line starts with one
of the required section headings (the `while` loop stops either there or
at the end of the list). -/
def hasLaterSection (ls : List String) (i : Nat) : Bool :=
  (ls.drop (i + 1)).any (fun l => requiredSections.any (fun s => pyStartsWith l s))

/-- The full condition under which `"", "---", ""` is appended after the
line at index `i`. -/
def sepCond (ls : List String) (i : Nat) (line : String) : Bool :=
  isSeparatorTrigger line && (nextNonEmptyAfter ls i != some "---") && hasLaterSection ls i

/-- The separator-inserting loop, walking the original list with its
index. -/
def addSeparatorsAux (ls : List String) : List String → Nat → List String
  | [], _ => []
  | line :: rest, i =>
      line :: ((if sepCond ls i line then ["", "---", ""] else []) ++ addSeparatorsAux ls rest (i + 1))

/-- The separator-inserting pass over the whole (title-fixed) content. -/
def addSeparators (ls : List String) : List String := addSeparatorsAux ls ls 0

/-- `OpenAIService._validate_documentation_format`, on the line
representation of the content. -/
def validate_documentation_format (contentLines : List String) (file_path : String) : List String :=
  let title := "# Documentation: `" ++ file_path ++ "`"
  let titled := if pyStartsWith (contentLines.headD "") title then contentLines
                else fixTitleLines title contentLines
  addSeparators titled

/-- Lines produced by `replaceFirstHeading` come from the input or are the
title. -/
theorem mem_replaceFirstHeading (title : String) (ls : List String) (l : String)
    (h : l ∈ replaceFirstHeading title ls) : l ∈ ls ∨ l = title := by
  induction ls with
  | nil => simp [replaceFirstHeading] at h
  | cons a rest ih =>
      simp only [replaceFirstHeading] at h
      split at h
      · rcases List.mem_cons.mp h with h1 | h1
        · exact Or.inr h1
        · exact Or.inl (List.mem_cons_of_mem _ h1)
      · rcases List.mem_cons.mp h with h1 | h1
        · exact Or.inl (h1 ▸ List.mem_cons_self _ _)
        · rcases ih h1 with h2 | h2
          · exact Or.inl (List.mem_cons_of_mem _ h2)
          · exact Or.inr h2

/-- Lines produced by the title-fixing step come from the input, are the
title, or are the inserted blank line. -/
theorem mem_fixTitleLines (title : String) (ls : List String) (l : String)
    (h : l ∈ fixTitleLines title ls) : l ∈ ls ∨ l = title ∨ l = "" := by
  unfold fixTitleLines at h
  split at h
  · rcases mem_replaceFirstHeading title ls l h with h1 | h1
    · exact Or.inl h1
    · exact Or.inr (Or.inl h1)
  · rcases List.mem_cons.mp h with h1 | h1
    · exact Or.inr (Or.inl h1)
    · rcases List.mem_cons.mp h1 with h2 | h2
      · exact Or.inr (Or.inr h2)
      · exact Or.inl h2

/-- Lines produced by the separator pass come from the walked suffix or
are the inserted blank/`---` lines. -/
theorem mem_addSeparatorsAux (base rest : List String) (i : Nat) (l : String)
    (h : l ∈ addSeparatorsAux base rest i) : l ∈ rest ∨ l = "" ∨ l = "---" := by
  induction rest generalizing i with
  | nil => simp [addSeparatorsAux] at h
  | cons line tl ih =>
      simp only [addSeparatorsAux] at h
      rcases List.mem_cons.mp h with h1 | h1
      · exact Or.inl (h1 ▸ List.mem_cons_self _ _)
      · rcases List.mem_append.mp h1 with h2 | h2
        · split at h2
          · simp only [List.mem_cons, List.mem_singleton] at h2
            rcases h2 with h3 | h3 | h3
            · exact Or.inr (Or.inl h3)
            · exact Or.inr (Or.inr h3)
            · simp at h3
              exact Or.inr (Or.inl h3)
          · simp at h2
        · rcases ih (i + 1) h2 with h3 | h3
          · exact Or.inl (List.mem_cons_of_mem _ h3)
          · exact Or.inr h3

/-- The separator pass never changes the first line. -/
theorem addSeparators_head (x : String) (xs : List String) :
    (addSeparators (x :: xs)).head? = some x := rfl

/-- C8 (counterexample): when the generated content has a non-heading
first line, the title rewrite happens at the first `'# '` line further
down, so the first line of the returned documentation is NOT the expected
title. -/
theorem title_rewrite_skips_leading_text :
    validate_documentation_format ["intro text", "# Documentation"] "a.py" =
      ["intro text", "# Documentation: `a.py`"] ∧
    ("intro text" : String) ≠ "# Documentation: `a.py`" := ⟨rfl, by decide⟩

/-- C8 (amended): the title rewrite runs only when the content does not
already start with `# Documentation: `<file_path>``; it replaces the
first line starting with `'# '` wherever it occurs (prepending the title
when no such line exists), and the separator pass inserts only blank and
`---` lines — so a missing section heading is never auto-filled, every
output line being an input line, the title, `""` or `"---"`.  Hence the
first line of the returned documentation is exactly the title when the
content's first line is a `'# '` heading that does not itself start with
the title, or when the content contains no `'# '` line at all; when the
content already starts with the title, the rewrite step is skipped
entirely and the first line is returned unchanged — it may extend beyond
the exact title. -/
theorem title_rewrite_and_no_section_autofill (ls : List String) (fp : String) :
    (∀ l ∈ validate_documentation_format ls fp,
        l ∈ ls ∨ l = "# Documentation: `" ++ fp ++ "`" ∨ l = "" ∨ l = "---") ∧
    (∀ a rest, ls = a :: rest →
        pyStartsWith a ("# Documentation: `" ++ fp ++ "`") = false →
        pyStartsWith a "# " = true →
        (validate_documentation_format ls fp).head? =
          some ("# Documentation: `" ++ fp ++ "`")) ∧
    (ls.all (fun l => !pyStartsWith l "# ") = true →
        pyStartsWith (ls.headD "") ("# Documentation: `" ++ fp ++ "`") = false →
        (validate_documentation_format ls fp).head? =
          some ("# Documentation: `" ++ fp ++ "`")) ∧
    (pyStartsWith (ls.headD "") ("# Documentation: `" ++ fp ++ "`") = true →
        validate_documentation_format ls fp = addSeparators ls ∧
        (validate_documentation_format ls fp).head? = ls.head?) := by
  refine ⟨?_, ?_, ?_, ?_⟩
  · intro l hl
    simp only [validate_documentation_format, addSeparators] at hl
    rcases mem_addSeparatorsAux _ _ _ _ hl with h1 | h1
    · split at h1
      · exact Or.inl h1
      · rcases mem_fixTitleLines _ _ _ h1 with h2 | h2 | h2
        · exact Or.inl h2
        · exact Or.inr (Or.inl h2)
        · exact Or.inr (Or.inr (Or.inl h2))
    · rcases h1 with h2 | h2
      · exact Or.inr (Or.inr (Or.inl h2))
      · exact Or.inr (Or.inr (Or.inr h2))
  · intro a rest hls h1 h2
    subst hls
    dsimp only [validate_documentation_format, List.headD]
    rw [if_neg (by simp [h1])]
    unfold fixTitleLines
    rw [if_pos (by simp [List.any_cons, h2])]
    unfold replaceFirstHeading
    rw [if_pos h2]
    exact addSeparators_head _ _
  · intro hall hh
    have hany : ls.any (fun l => pyStartsWith l "# ") = false := by
      rw [List.any_eq_false]
      intro x hx
      have hx2 := List.all_eq_true.mp hall x hx
      simp only [Bool.not_eq_true'] at hx2
      simp [hx2]
    have hh2 : pyStartsWith (ls.head?.getD "") ("# Documentation: `" ++ fp ++ "`") = false := by
      cases ls with
      | nil => exact hh
      | cons a t => exact hh
    dsimp only [validate_documentation_format]
    rw [if_neg (by simp [hh2])]
    unfold fixTitleLines
    rw [if_neg (by simp [hany])]
    exact addSeparators_head _ _
  · intro hst
    have heq : validate_documentation_format ls fp = addSeparators ls := by
      dsimp only [validate_documentation_format]
      rw [if_pos hst]
    refine ⟨heq, ?_⟩
    rw [heq]
    cases ls with
    | nil => rfl
    | cons a t => exact addSeparators_head _ _

/-- Witness for `title_rewrite_and_no_section_autofill`: a heading first
line that does not start with the title is rewritten in place;
heading-free content gets the title prepended; a first line that merely
extends the title is kept unchanged because the rewrite is skipped. -/
theorem title_rewrite_and_no_section_autofill_witness :
    (validate_documentation_format ["# Old Title", "body"] "m.py").head? =
      some "# Documentation: `m.py`" ∧
    (validate_documentation_format ["plain text only"] "m.py").head? =
      some "# Documentation: `m.py`" ∧
    (validate_documentation_format ["# Documentation: `m.py` extra"] "m.py").head? =
      some "# Documentation: `m.py` extra" :=
  ⟨(title_rewrite_and_no_section_autofill ["# Old Title", "body"] "m.py").2.1
      "# Old Title" ["body"] rfl (by decide) (by decide),
   (title_rewrite_and_no_section_autofill ["plain text only"] "m.py").2.2.1
      (by decide) (by decide),
   ((title_rewrite_and_no_section_autofill ["# Documentation: `m.py` extra"] "m.py").2.2.2
      (by decide)).2⟩

/-!
## Documentation batch endpoint —
`OpenAIController.generate_documentation`, `BaseController.error_response`

The per-file service call
`OpenAIService.generate_documentation_from_base64` either returns a result
dict or raises; it is a collaborator of the loop, passed in as a function
`gen` so that the loop's behaviour is stated for every possible mix of
per-file outcomes.  `BaseController.error_response(self, message="An
error occurred", status_code=400, errors=None)` accepts no `data`
parameter, yet the all-failed branch calls it with `data=response_data`;
the keyword check below embeds Python's `TypeError` for that call, which
the outer `except Exception` converts into the generic 500 envelope.
-/

/-- One entry of the request's `files` list (`FileItemSchema`: `file_name`
and `base64`, both required strings). -/
structure FileItem where
  file_name : String
  base64 : String
deriving DecidableEq

/-- `DocumentationGenerationSchema`: `files` required with
`1 <= len(x) <= 5`. -/
def documentation_schema_valid (files : List FileItem) : Bool :=
  decide (1 ≤ files.length) && decide (files.length ≤ 5)

/-- The success dict of `generate_documentation_from_base64`. -/
structure DocResult where
  file : String
  model_used : String
  documentation : String
  status : String
deriving DecidableEq

/-- The `error_info` dict recorded for a file whose generation raised. -/
structure FileError where
  file_name : String
  error : String
deriving DecidableEq

/-- The `for file_item in validated_data['files']` loop: each file is
passed to the generation call independently; a raised exception becomes
that file's `errors` entry and the loop continues. -/
def processFiles (gen : FileItem → Except String DocResult) :
    List FileItem → List DocResult × List FileError
  | [] => ([], [])
  | f :: rest =>
      match gen f with
      | .ok r => (r :: (processFiles gen rest).1, (processFiles gen rest).2)
      | .error e => ((processFiles gen rest).1, ⟨f.file_name, e⟩ :: (processFiles gen rest).2)

/-- The `response_data` dict (`'errors': errors if errors else None`). -/
structure BatchResponse where
  total_files : Nat
  successful : Nat
  failed : Nat
  results : List DocResult
  errors : Option (List FileError)
  generated_by : Nat
deriving DecidableEq

/-- Builds `response_data` from the collected results and errors. -/
def buildBatchResponse (userId : Nat) (files : List FileItem)
    (rs : List DocResult) (es : List FileError) : BatchResponse :=
  { total_files := files.length, successful := rs.length, failed := es.length,
    results := rs, errors := if es.isEmpty then none else some es,
    generated_by := userId }

/-- The envelope returned by the documentation endpoint; `data` is the
attached `response_data`, when any. -/
structure DocEnv where
  success : Bool
  message : String
  status : Nat
  data : Option BatchResponse
deriving DecidableEq

/-- Parameter names of `BaseController.error_response`. -/
def error_response_param_names : List String := ["self", "message", "status_code", "errors"]

/-- Arguments of the all-failed branch's call
`error_response('Failed to generate documentation for all files', 500,
data=response_data)`, by parameter name. -/
def all_failed_call_keywords : List String := ["self", "message", "status_code", "data"]

/-- `OpenAIController.generate_documentation` from the schema validation
on: the per-file loop, the `response_data` assembly, and the three-way
branch on `results`/`errors`; `tyMsg` stands for the interpreter's
`TypeError` text. -/
def generate_documentation_handler (tyMsg : String)
    (gen : FileItem → Except String DocResult) (userId : Nat)
    (files : List FileItem) : DocEnv :=
  if !documentation_schema_valid files then
    ⟨false, "Validation error: files: Invalid value.", 400, none⟩
  else
    let rs := (processFiles gen files).1
    let es := (processFiles gen files).2
    let response_data := buildBatchResponse userId files rs es
    if !rs.isEmpty && es.isEmpty then
      ⟨true, "Documentation generated successfully for " ++ toString rs.length ++ " files",
        200, some response_data⟩
    else if !rs.isEmpty && !es.isEmpty then
      ⟨true, "Documentation generated for " ++ toString rs.length ++ " files, "
          ++ toString es.length ++ " files failed", 200, some response_data⟩
    else
      if all_failed_call_keywords.all (fun k => error_response_param_names.contains k) then
        ⟨false, "Failed to generate documentation for all files", 500, some response_data⟩
      else
        ⟨false, "Failed to process documentation request: " ++ tyMsg, 500, none⟩

/-- The loop processes every file independently: the collected results and
errors are pointwise images of the per-file outcomes, and each file lands
in exactly one of the two lists. -/
theorem processFiles_spec (gen : FileItem → Except String DocResult)
    (files : List FileItem) :
    (processFiles gen files).1 = files.filterMap (fun f => (gen f).toOption) ∧
    (processFiles gen files).2 = files.filterMap (fun f =>
        match gen f with
        | .error e => some ⟨f.file_name, e⟩
        | .ok _ => none) ∧
    (processFiles gen files).1.length + (processFiles gen files).2.length = files.length := by
  induction files with
  | nil => exact ⟨rfl, rfl, rfl⟩
  | cons f rest ih =>
      obtain ⟨ih1, ih2, ih3⟩ := ih
      refine ⟨?_, ?_, ?_⟩
      · cases hg : gen f with
        | ok r => simp [processFiles, hg, Except.toOption, ih1]
        | error e => simp [processFiles, hg, Except.toOption, ih1]
      · cases hg : gen f with
        | ok r => simp [processFiles, hg, Except.toOption, ih2]
        | error e => simp [processFiles, hg, Except.toOption, ih2]
      · cases hg : gen f with
        | ok r =>
            simp only [processFiles, hg, List.length_cons]
            omega
        | error e =>
            simp only [processFiles, hg, List.length_cons]
            omega

/-- C9: for every validated batch (1–5 files), the files are processed
independently — the error entry of a failing file never disturbs the
processing of the others, both lists being pointwise images of the
per-file outcomes — and the assembled response satisfies
`successful + failed = total_files`. -/
theorem batch_files_processed_independently
    (gen : FileItem → Except String DocResult) (userId : Nat)
    (files : List FileItem) (h1 : 1 ≤ files.length) (h5 : files.length ≤ 5) :
    (processFiles gen files).1 = files.filterMap (fun f => (gen f).toOption) ∧
    (processFiles gen files).2 = files.filterMap (fun f =>
        match gen f with
        | .error e => some ⟨f.file_name, e⟩
        | .ok _ => none) ∧
    (buildBatchResponse userId files (processFiles gen files).1
        (processFiles gen files).2).successful +
      (buildBatchResponse userId files (processFiles gen files).1
        (processFiles gen files).2).failed =
      (buildBatchResponse userId files (processFiles gen files).1
        (processFiles gen files).2).total_files := by
  obtain ⟨ha, hb, hc⟩ := processFiles_spec gen files
  exact ⟨ha, hb, hc⟩

/-- Witness for `batch_files_processed_independently`: a two-file batch in
which the second file's generation raises still documents the first file,
and the counts add up. -/
theorem batch_files_processed_independently_witness :
    (processFiles
        (fun f => if f.file_name == "a.py"
          then .ok ⟨"a.py", "gpt-3.5-turbo", "# Documentation: `a.py`", "success"⟩
          else .error "boom")
        [⟨"a.py", "cHJpbnQoMSk="⟩, ⟨"b.js", "eA=="⟩]).1 =
      [⟨"a.py", "gpt-3.5-turbo", "# Documentation: `a.py`", "success"⟩] ∧
    (processFiles
        (fun f => if f.file_name == "a.py"
          then .ok ⟨"a.py", "gpt-3.5-turbo", "# Documentation: `a.py`", "success"⟩
          else .error "boom")
        [⟨"a.py", "cHJpbnQoMSk="⟩, ⟨"b.js", "eA=="⟩]).2 = [⟨"b.js", "boom"⟩] := by
  have h := batch_files_processed_independently
    (fun f => if f.file_name == "a.py"
      then .ok ⟨"a.py", "gpt-3.5-turbo", "# Documentation: `a.py`", "success"⟩
      else .error "boom")
    7 [⟨"a.py", "cHJpbnQoMSk="⟩, ⟨"b.js", "eA=="⟩] (by decide) (by decide)
  exact ⟨h.1.trans rfl, h.2.1.trans rfl⟩

/-- `(a ++ b).data = a.data ++ b.data` for the string representation. -/
theorem pyData_append (a b : String) : (a ++ b).data = a.data ++ b.data := by
  cases a
  cases b
  rfl

/-- `startswith` is stable under appending a suffix. -/
theorem pyStartsWith_append (p s t : String) (h : pyStartsWith s p = true) :
    pyStartsWith (s ++ t) p = true := by
  unfold pyStartsWith at h ⊢
  rw [pyData_append]
  rw [List.isPrefixOf_iff_prefix] at h ⊢
  exact h.trans (List.prefix_append _ _)

/-- C10: when every file of a validated batch fails, the all-failed branch
calls `error_response` with the unsupported `data` keyword, the resulting
`TypeError` reaches the outer handler, and the client gets the generic 500
envelope: its message is `Failed to process documentation request: ` plus
the interpreter's error text — so it starts with the claimed prefix — and
it carries no `data`, hence no per-file error list. -/
theorem all_failed_batch_returns_generic_500 (tyMsg : String)
    (gen : FileItem → Except String DocResult) (userId : Nat)
    (files : List FileItem) (h1 : 1 ≤ files.length) (h5 : files.length ≤ 5)
    (hfail : ∀ f ∈ files, ∃ e, gen f = .error e) :
    generate_documentation_handler tyMsg gen userId files =
      ⟨false, "Failed to process documentation request: " ++ tyMsg, 500, none⟩ ∧
    pyStartsWith ("Failed to process documentation request: " ++ tyMsg)
      "Failed to process documentation request:" = true := by
  constructor
  · have hv : documentation_schema_valid files = true := by
      simp only [documentation_schema_valid, Bool.and_eq_true, decide_eq_true_eq]
      exact ⟨h1, h5⟩
    have hrs : (processFiles gen files).1 = [] := by
      rw [(processFiles_spec gen files).1]
      rw [List.filterMap_eq_nil_iff]
      intro f hf
      obtain ⟨e, he⟩ := hfail f hf
      simp [he, Except.toOption]
    have hlen := (processFiles_spec gen files).2.2
    have hes : (processFiles gen files).2.isEmpty = false := by
      cases h2 : (processFiles gen files).2 with
      | nil =>
          rw [hrs, h2] at hlen
          simp at hlen
          omega
      | cons a t => rfl
    have hrsE : (processFiles gen files).1.isEmpty = true := by
      rw [hrs]
      rfl
    have hkw : all_failed_call_keywords.all
        (fun k => error_response_param_names.contains k) = false := by decide
    dsimp only [generate_documentation_handler]
    rw [hv, hkw]
    simp only [Bool.not_true, Bool.false_eq_true, if_false, hrsE, hes, Bool.not_false,
      Bool.and_false, Bool.false_and]
  · exact pyStartsWith_append _ _ _ (by decide)

/-- Witness for `all_failed_batch_returns_generic_500`: a single-file
batch whose generation raises gets the generic 500 envelope without the
per-file error list. -/
theorem all_failed_batch_returns_generic_500_witness :
    generate_documentation_handler "unexpected keyword argument data"
        (fun _ => .error "boom") 7 [⟨"a.py", "cHJpbnQoMSk="⟩] =
      ⟨false, "Failed to process documentation request: unexpected keyword argument data",
        500, none⟩ :=
  (all_failed_batch_returns_generic_500 "unexpected keyword argument data"
    (fun _ => .error "boom") 7 [⟨"a.py", "cHJpbnQoMSk="⟩]
    (by decide) (by decide) (fun f _ => ⟨"boom", rfl⟩)).1
